import Mathlib

/-!
Shallow embedding of the reminder bot (src/main.py): the subscriber store
(load_subscribers, save_subscribers, add_subscriber, remove_subscriber), the
broadcaster (send_message, the tick endpoint) and the webhook command dispatcher
(telegram_webhook), together with theorems settling the frozen claims about them.

Modelling conventions:
- JSON values are the inductive Json below (floats are omitted: nothing the store
  writes or the claims mention produces a float).
- Python semantics that matter are modelled explicitly: isinstance(x, int) is true
  for booleans; str.lstrip removes every matching leading character; str.isdigit
  and int() are modelled over ASCII text (CPython additionally accepts some
  non-ASCII digit forms, which no claim exercises); a list comprehension whose
  element expression raises discards the whole result (the surrounding
  try/except of load_subscribers then returns []).
- Exceptions are Except values; functions whose Python bodies swallow every
  exception are total.
- The network is an oracle (net : Int -> Option Nat): none models requests.post
  raising, some code models an HTTP response with that status code.
-/

set_option maxRecDepth 8000

/-- A JSON value as produced by json.load, without floats. -/
inductive Json where
  | jnull : Json
  | jbool : Bool → Json
  | jint : Int → Json
  | jstr : String → Json
  | jarr : List Json → Json
  | jobj : List (String × Json) → Json

/-- Python truthiness of a JSON-derived value: None, False, 0, empty string, empty
list and empty dict are falsy. -/
def truthy : Json → Bool
  | Json.jnull => false
  | Json.jbool b => b
  | Json.jint n => n != 0
  | Json.jstr s => s ≠ ""
  | Json.jarr xs => !xs.isEmpty
  | Json.jobj fs => !fs.isEmpty

/-- Python whitespace characters stripped by int() (ASCII fragment). -/
def pyWs (c : Char) : Bool :=
  c = ' ' || c = '\t' || c = '\n' || c = '\r' || c = '\x0b' || c = '\x0c'

/-- Strip leading and trailing whitespace, as int() does to its string argument. -/
def stripWs (l : List Char) : List Char :=
  ((l.dropWhile pyWs).reverse.dropWhile pyWs).reverse

/-- After a first digit, int() accepts further digits with single underscores
strictly between digits. -/
def digitsTail : List Char → Bool
  | [] => true
  | '_' :: c :: rest => c.isDigit && digitsTail rest
  | c :: rest => c.isDigit && digitsTail rest

/-- Digit run accepted by int() after the optional sign: nonempty, starts with a
digit, single underscores only between digits. -/
def digitsUnderscore : List Char → Bool
  | [] => false
  | c :: rest => c.isDigit && digitsTail rest

/-- Drop the underscore digit separators before computing the value. -/
def digitsOnly (l : List Char) : List Char :=
  l.filter (fun c => c ≠ '_')

/-- Numeric value of a run of ASCII digits. -/
def digitsVal (l : List Char) : Nat :=
  l.foldl (fun a c => a * 10 + (c.toNat - '0'.toNat)) 0

/-- Python int(s) for ASCII strings: optional surrounding whitespace, one optional
sign, then digits with optional single underscore separators. none models int()
raising ValueError. -/
def pyStrToInt (s : String) : Option Int :=
  match stripWs s.data with
  | '-' :: rest =>
    if digitsUnderscore rest then some (-(digitsVal (digitsOnly rest) : Int)) else none
  | '+' :: rest =>
    if digitsUnderscore rest then some ((digitsVal (digitsOnly rest) : Int)) else none
  | rest =>
    if digitsUnderscore rest then some ((digitsVal (digitsOnly rest) : Int)) else none

/-- Python str.isdigit for ASCII strings: nonempty and every character a digit. -/
def pyIsDigit (l : List Char) : Bool :=
  !l.isEmpty && l.all Char.isDigit

/-- The filter of the comprehension in load_subscribers (src/main.py line 118):
isinstance(x, int) — which is also true for Python booleans — or isinstance(x, str)
and x.lstrip("-").isdigit(). Note that lstrip("-") removes every leading dash, not
just one. -/
def keepEntry : Json → Bool
  | Json.jint _ => true
  | Json.jbool _ => true
  | Json.jstr s => pyIsDigit (s.data.dropWhile (fun c => c = '-'))
  | _ => false

/-- Python int(x) on a JSON-derived value: identity on ints, 1/0 on booleans,
string parsing on strings; none models TypeError/ValueError. -/
def pyIntOfJson : Json → Option Int
  | Json.jint n => some n
  | Json.jbool b => some (if b then 1 else 0)
  | Json.jstr s => pyStrToInt s
  | _ => none

/-- The comprehension [int(x) for x in data if COND] of load_subscribers, evaluated
left to right: when int(x) raises on a kept entry the whole comprehension raises
(none), which the surrounding try/except turns into []. -/
def listComp : List Json → Option (List Int)
  | [] => some []
  | x :: xs =>
    if keepEntry x then
      match pyIntOfJson x with
      | none => none
      | some n => (listComp xs).map (fun l => n :: l)
    else listComp xs

/-- Persisted storage state for subscribers.json. save_subscribers only ever writes
a JSON array, so the modelled states are: no file; an unreadable file (open or
json.load raises, and load_subscribers returns [] from its except branch); or a
stored JSON array. -/
inductive Storage where
  | absent : Storage
  | unreadable : Storage
  | arr : List Json → Storage

/-- load_subscribers (src/main.py lines 107-121): [] when the file is absent or
unreadable, otherwise the comprehension over the stored array, with [] when the
comprehension raises. -/
def load_subscribers : Storage → List Int
  | Storage.absent => []
  | Storage.unreadable => []
  | Storage.arr xs => (listComp xs).getD []

/-- save_subscribers (src/main.py lines 124-130): overwrites the file with the JSON
array of the given chat ids. -/
def save_subscribers (chat_ids : List Int) : Storage :=
  Storage.arr (chat_ids.map Json.jint)

/-- add_subscriber (src/main.py lines 133-139): load, append and save only when the
chat id is absent. The Bool records whether save_subscribers was invoked. -/
def add_subscriber (st : Storage) (chat_id : Int) : Storage × Bool :=
  let subscribers := load_subscribers st
  if chat_id ∈ subscribers then (st, false)
  else (save_subscribers (subscribers ++ [chat_id]), true)

/-- remove_subscriber (src/main.py lines 142-148): load, remove the first occurrence
and save only when the chat id is present. The Bool records whether
save_subscribers was invoked. -/
def remove_subscriber (st : Storage) (chat_id : Int) : Storage × Bool :=
  let subscribers := load_subscribers st
  if chat_id ∈ subscribers then (save_subscribers (subscribers.erase chat_id), true)
  else (st, false)

/-- Iterated add_subscriber with a fixed chat id. -/
def addN : Storage → Int → Nat → Storage
  | st, _, 0 => st
  | st, chat_id, Nat.succ n => addN (add_subscriber st chat_id).1 chat_id n

lemma listComp_map_jint (xs : List Int) : listComp (xs.map Json.jint) = some xs := by
  induction xs with
  | nil => rfl
  | cons a l ih => simp [listComp, keepEntry, pyIntOfJson, ih]

lemma load_save (xs : List Int) : load_subscribers (save_subscribers xs) = xs := by
  simp [load_subscribers, save_subscribers, listComp_map_jint]

lemma add_noop_of_mem (st : Storage) (chat_id : Int)
    (h : chat_id ∈ load_subscribers st) : add_subscriber st chat_id = (st, false) := by
  simp [add_subscriber, h]

lemma add_of_not_mem (st : Storage) (chat_id : Int)
    (h : chat_id ∉ load_subscribers st) :
    (add_subscriber st chat_id).1 = save_subscribers (load_subscribers st ++ [chat_id]) := by
  simp [add_subscriber, h]

/-- Claim C9: when the persisted storage is absent, load_subscribers returns the
empty list and (being total) raises no error. -/
theorem claim_C9 : load_subscribers Storage.absent = [] := rfl

/-- Claim C10: when the chat id is already present in the loaded subscriber list,
add_subscriber short-circuits: it performs no save at all and leaves the storage
untouched. -/
theorem claim_C10 (st : Storage) (chat_id : Int)
    (h : chat_id ∈ load_subscribers st) : add_subscriber st chat_id = (st, false) := by
  simp [add_subscriber, h]

theorem claim_C10_witness :
    5 ∈ load_subscribers (Storage.arr [Json.jint 5]) ∧
    add_subscriber (Storage.arr [Json.jint 5]) 5 = (Storage.arr [Json.jint 5], false) :=
  ⟨by decide, claim_C10 (Storage.arr [Json.jint 5]) 5 (by decide)⟩

/-- Claim C8: removing a chat id that is not in the current subscriber list leaves
the subscriber list observable through load_subscribers unchanged (the storage is
not even rewritten). -/
theorem claim_C8 (st : Storage) (chat_id : Int)
    (h : chat_id ∉ load_subscribers st) :
    load_subscribers (remove_subscriber st chat_id).1 = load_subscribers st := by
  simp [remove_subscriber, h]

theorem claim_C8_witness :
    2 ∉ load_subscribers (Storage.arr [Json.jint 1]) ∧
    load_subscribers (remove_subscriber (Storage.arr [Json.jint 1]) 2).1 =
      load_subscribers (Storage.arr [Json.jint 1]) :=
  ⟨by decide, claim_C8 (Storage.arr [Json.jint 1]) 2 (by decide)⟩

lemma listComp_eq_filterMap (xs : List Json)
    (h : ∀ x ∈ xs, keepEntry x = true → (pyIntOfJson x).isSome = true) :
    listComp xs = some (xs.filterMap fun x => if keepEntry x then pyIntOfJson x else none) := by
  induction xs with
  | nil => rfl
  | cons x xs ih =>
    have hxs : ∀ y ∈ xs, keepEntry y = true → (pyIntOfJson y).isSome = true :=
      fun y hy => h y (List.mem_cons_of_mem x hy)
    by_cases hk : keepEntry x = true
    · obtain ⟨n, hn⟩ := Option.isSome_iff_exists.mp (h x (List.mem_cons_self x xs) hk)
      simp [listComp, List.filterMap_cons, hk, hn, ih hxs]
    · have hk0 : keepEntry x = false := by simpa using hk
      simp [listComp, List.filterMap_cons, hk0, ih hxs]

lemma listComp_drop_unkept (pre post : List Json) (x : Json)
    (hx : keepEntry x = false) :
    listComp (pre ++ x :: post) = listComp (pre ++ post) := by
  induction pre with
  | nil => simp [listComp, hx]
  | cons p pre ih =>
    simp only [List.cons_append, listComp, List.append_eq]
    rw [ih]

lemma listComp_conv_fail (pre post : List Json) (s : String)
    (hk : keepEntry (Json.jstr s) = true) (hc : pyStrToInt s = none) :
    listComp (pre ++ Json.jstr s :: post) = none := by
  induction pre with
  | nil => simp [listComp, hk, pyIntOfJson, hc]
  | cons p pre ih =>
    simp only [List.cons_append, listComp, List.append_eq]
    rw [ih]
    cases hkp : keepEntry p
    · simp
    · cases hcp : pyIntOfJson p <;> simp

/-- Claim C1 counterexample: the stored array [5, 5] loads as [5, 5]: the chat id 5
occurs twice in the result, while the claim requires it to appear exactly once.
load_subscribers performs no deduplication. -/
theorem claim_C1_counterexample :
    load_subscribers (Storage.arr [Json.jint 5, Json.jint 5]) = [5, 5] ∧
    (load_subscribers (Storage.arr [Json.jint 5, Json.jint 5])).count 5 = 2 := by
  constructor <;> decide

/-- Claim C1 (amended): for every stored JSON array all of whose kept entries
convert, load_subscribers returns the valid integer-like entries in their original
order with duplicates preserved, not removed: the result is the in-order
filter-and-convert of the array, in which a repeated identifier appears once per
occurrence. -/
theorem claim_C1 (xs : List Json)
    (h : ∀ x ∈ xs, keepEntry x = true → (pyIntOfJson x).isSome = true) :
    load_subscribers (Storage.arr xs) =
      xs.filterMap fun x => if keepEntry x then pyIntOfJson x else none := by
  simp [load_subscribers, listComp_eq_filterMap xs h]

theorem claim_C1_witness :
    load_subscribers
        (Storage.arr [Json.jint 5, Json.jstr "abc", Json.jstr "-7", Json.jint 5, Json.jnull]) =
      List.filterMap (fun x => if keepEntry x then pyIntOfJson x else none)
        [Json.jint 5, Json.jstr "abc", Json.jstr "-7", Json.jint 5, Json.jnull] ∧
    List.filterMap (fun x => if keepEntry x then pyIntOfJson x else none)
        [Json.jint 5, Json.jstr "abc", Json.jstr "-7", Json.jint 5, Json.jnull] = [5, -7, 5] :=
  ⟨claim_C1 [Json.jint 5, Json.jstr "abc", Json.jstr "-7", Json.jint 5, Json.jnull] (by decide),
   by decide⟩

/-- Claim C2 counterexample: in the stored array [1, "--2"] the entry "--2" passes
the filter (lstrip("-") strips both dashes, leaving the digit "2") but int("--2")
raises, so the whole comprehension raises and load_subscribers returns []: the
valid entry 1 is lost, while the claim requires the invalid entry to be dropped on
its own and 1 to be kept. -/
theorem claim_C2_counterexample :
    load_subscribers (Storage.arr [Json.jint 1, Json.jstr "--2"]) = [] ∧
    1 ∉ load_subscribers (Storage.arr [Json.jint 1, Json.jstr "--2"]) := by
  constructor <;> decide

/-- Claim C2 (amended): load_subscribers filters per entry for entries that fail the
filter test (not an integer and not a string whose characters after stripping every
leading dash are all digits): such an entry is dropped on its own without affecting
the rest. However, a string that passes the filter but fails integer conversion (two
or more leading dashes followed by digits) makes the whole load return [], losing
every valid entry. -/
theorem claim_C2 :
    (∀ (pre post : List Json) (x : Json), keepEntry x = false →
      load_subscribers (Storage.arr (pre ++ x :: post)) =
        load_subscribers (Storage.arr (pre ++ post))) ∧
    (∀ (pre post : List Json) (s : String), keepEntry (Json.jstr s) = true →
      pyStrToInt s = none →
      load_subscribers (Storage.arr (pre ++ Json.jstr s :: post)) = []) :=
  ⟨fun pre post x hx => by simp [load_subscribers, listComp_drop_unkept pre post x hx],
   fun pre post s hk hc => by simp [load_subscribers, listComp_conv_fail pre post s hk hc]⟩

theorem claim_C2_witness :
    load_subscribers (Storage.arr ([Json.jint 1] ++ Json.jnull :: [Json.jint 2])) =
      load_subscribers (Storage.arr ([Json.jint 1] ++ [Json.jint 2])) ∧
    load_subscribers (Storage.arr ([Json.jint 1] ++ Json.jstr "--2" :: [Json.jint 3])) = [] :=
  ⟨claim_C2.1 [Json.jint 1] [Json.jint 2] Json.jnull (by decide),
   claim_C2.2 [Json.jint 1] [Json.jint 3] "--2" (by decide) (by decide)⟩

/-- requests raise_for_status: raises HTTPError for status codes 400 through 599. -/
def raise_for_status (code : Nat) : Except String Unit :=
  if 400 ≤ code ∧ code < 600 then Except.error "HTTPError" else Except.ok ()

/-- send_message (src/main.py lines 151-164): posts to the messaging API. The net
oracle models the network per chat id: none means requests.post raised, some code
means an HTTP response with that status. Every failure is caught and logged, so the
call always returns; the Bool records whether the send succeeded. -/
def send_message (net : Int → Option Nat) (chat_id : Int) (_text : String) : Bool :=
  match net chat_id with
  | none => false
  | some code =>
    match raise_for_status code with
    | Except.error _ => false
    | Except.ok _ => true

/-- The tick endpoint (src/main.py lines 210-226): loads the subscribers, reports
sent 0 when there are none, otherwise sends the reminder to every chat id in order
and reports sent N. The first component is the list of attempted sends
(chat id, text, outcome) in order; the second is the reported count. -/
def tick (net : Int → Option Nat) (msg : String) (st : Storage) :
    List (Int × String × Bool) × Nat :=
  let subscribers := load_subscribers st
  if subscribers.isEmpty then ([], 0)
  else (subscribers.map (fun c => (c, msg, send_message net c msg)), subscribers.length)

/-- Claim C3: for every subscriber list and every behaviour of the network — including
one where every single send fails — tick attempts a send to each of the N stored chat
ids in sequence, with no early termination, and reports the count N of attempted
sends. -/
theorem claim_C3 (net : Int → Option Nat) (msg : String) (ids : List Int) :
    tick net msg (Storage.arr (ids.map Json.jint)) =
      (ids.map (fun c => (c, msg, send_message net c msg)), ids.length) := by
  have hload : load_subscribers (Storage.arr (ids.map Json.jint)) = ids := by
    simp [load_subscribers, listComp_map_jint]
  simp only [tick]
  rw [hload]
  cases ids with
  | nil => simp
  | cons a l => simp

lemma addN_of_mem (st : Storage) (chat_id : Int)
    (h : chat_id ∈ load_subscribers st) (n : Nat) : addN st chat_id n = st := by
  induction n with
  | zero => rfl
  | succ n ih => simp [addN, add_noop_of_mem st chat_id h, ih]

/-- Claim C6 counterexample: starting from the stored array [5, 5], a call to
add_subscriber 5 finds 5 already present and changes nothing, so load_subscribers
still returns 5 twice — not exactly once as the claim requires for every starting
store state. -/
theorem claim_C6_counterexample :
    (load_subscribers (addN (Storage.arr [Json.jint 5, Json.jint 5]) 5 1)).count 5 = 2 := by
  decide

/-- Claim C6 (amended): for every identifier and every starting store state whose
loaded list contains the identifier at most once, after one or more calls to
add_subscriber the loaded list contains the identifier exactly once, however many
times add_subscriber is called. When the starting storage already holds duplicate
occurrences of the identifier, add_subscriber is a no-op and the duplicates
persist. -/
theorem claim_C6 (st : Storage) (chat_id : Int) (n : Nat)
    (hcount : (load_subscribers st).count chat_id ≤ 1) (hn : 1 ≤ n) :
    (load_subscribers (addN st chat_id n)).count chat_id = 1 := by
  obtain ⟨m, rfl⟩ : ∃ m, n = m + 1 := ⟨n - 1, by omega⟩
  by_cases hmem : chat_id ∈ load_subscribers st
  · have hone : (load_subscribers st).count chat_id = 1 := by
      have hpos : 0 < (load_subscribers st).count chat_id := List.count_pos_iff.mpr hmem
      omega
    rw [addN_of_mem st chat_id hmem (m + 1)]
    exact hone
  · have h0 : (load_subscribers st).count chat_id = 0 := by
      simpa using List.count_eq_zero.mpr hmem
    have hload1 : load_subscribers (add_subscriber st chat_id).1 =
        load_subscribers st ++ [chat_id] := by
      rw [add_of_not_mem st chat_id hmem, load_save]
    have hmem1 : chat_id ∈ load_subscribers (add_subscriber st chat_id).1 := by
      rw [hload1]; simp
    have hstep : addN st chat_id (m + 1) = (add_subscriber st chat_id).1 := by
      show addN (add_subscriber st chat_id).1 chat_id m = (add_subscriber st chat_id).1
      exact addN_of_mem _ chat_id hmem1 m
    rw [hstep, hload1, List.count_append]
    simp [h0]

theorem claim_C6_witness :
    (load_subscribers (Storage.arr [])).count 7 ≤ 1 ∧
    (load_subscribers (addN (Storage.arr []) 7 2)).count 7 = 1 :=
  ⟨by decide, claim_C6 (Storage.arr []) 7 2 (by decide) (by decide)⟩

/-- Claim C7 counterexample: starting from the stored array [5], add_subscriber 5 is
a no-op (5 is already present) and remove_subscriber 5 then deletes it, so the
round trip ends with the empty list instead of the original [5]. -/
theorem claim_C7_counterexample :
    load_subscribers (Storage.arr [Json.jint 5]) = [5] ∧
    load_subscribers
      (remove_subscriber (add_subscriber (Storage.arr [Json.jint 5]) 5).1 5).1 = [] := by
  constructor <;> decide

/-- Claim C7 (amended): for every identifier not already present in the loaded
subscriber list, add_subscriber followed immediately by remove_subscriber of that
identifier restores the original subscriber list as observed through
load_subscribers. When the identifier is already present, add is a no-op and remove
deletes its first occurrence, so the original set is not restored. -/
theorem claim_C7 (st : Storage) (chat_id : Int)
    (h : chat_id ∉ load_subscribers st) :
    load_subscribers (remove_subscriber (add_subscriber st chat_id).1 chat_id).1 =
      load_subscribers st := by
  have hload1 : load_subscribers (add_subscriber st chat_id).1 =
      load_subscribers st ++ [chat_id] := by
    rw [add_of_not_mem st chat_id h, load_save]
  have hmem1 : chat_id ∈ load_subscribers (add_subscriber st chat_id).1 := by
    rw [hload1]; simp
  have hrem : (remove_subscriber (add_subscriber st chat_id).1 chat_id).1 =
      save_subscribers ((load_subscribers st ++ [chat_id]).erase chat_id) := by
    simp only [remove_subscriber, hload1]
    rw [if_pos (by simp)]
  rw [hrem, load_save, List.erase_append_right _ h, List.erase_cons_head,
    List.append_nil]

theorem claim_C7_witness :
    3 ∉ load_subscribers (Storage.arr [Json.jint 1]) ∧
    load_subscribers
        (remove_subscriber (add_subscriber (Storage.arr [Json.jint 1]) 3).1 3).1 =
      load_subscribers (Storage.arr [Json.jint 1]) :=
  ⟨by decide, claim_C7 (Storage.arr [Json.jint 1]) 3 (by decide)⟩

/-- Lookup in a JSON object, as Python dict indexing: with duplicate keys the last
binding wins, as in dict construction from a JSON text. -/
def jsonGet (fields : List (String × Json)) (key : String) : Option Json :=
  (fields.reverse.find? (fun kv => kv.1 == key)).map (fun kv => kv.2)

/-- Python value.get(key): only dicts have a get method, so any other receiver
raises AttributeError. The none result stands for a missing key. -/
def pyGet : Json → String → Except String (Option Json)
  | Json.jobj fields, key => Except.ok (jsonGet fields key)
  | _, _ => Except.error "AttributeError"

/-- Truthiness of a Python optional: None is falsy, otherwise the value decides. -/
def truthyOpt : Option Json → Bool
  | none => false
  | some v => truthy v

/-- Python str.startswith. -/
def pyStartsWith (s pre : String) : Bool :=
  List.isPrefixOf pre.data s.data

/-- The JSON body the webhook handler returns on every path it completes. -/
def okBody : Json :=
  Json.jobj [("ok", Json.jbool true)]

/-- Result of a completed webhook call: the storage afterwards, the confirmation
sends attempted (chat id, text, outcome), and the response body. -/
structure WebhookResult where
  storage : Storage
  sends : List (Int × String × Bool)
  response : Json

/-- Confirmation text sent on subscribe (src/main.py line 196). -/
def subscribeReply : String := "Вы успешно подписались на напоминания."

/-- Confirmation text sent on unsubscribe (src/main.py line 199). -/
def unsubscribeReply : String := "Вы успешно отписались от напоминаний."

/-- telegram_webhook (src/main.py lines 170-201): the POST webhook handler. Reads
message or edited_message, the chat id and the text, handles the start and stop
command prefixes, and returns the ok body. Field accesses on values of unexpected
types and failing int conversions raise (Except.error), in which case the handler
produces no response and the framework answers with a 500 error instead. Python
dict.get(key, default) yields the default only when the key is missing: a key bound
to null yields None, which is why a null chat or text behaves like a non-dict or a
falsy value respectively. -/
def telegram_webhook (net : Int → Option Nat) (st : Storage) (update : Json) :
    Except String WebhookResult :=
  match pyGet update "message" with
  | Except.error e => Except.error e
  | Except.ok m1 =>
    match if truthyOpt m1 then Except.ok m1 else pyGet update "edited_message" with
    | Except.error e => Except.error e
    | Except.ok msgOpt =>
      match msgOpt with
      | none => Except.ok ⟨st, [], okBody⟩
      | some mv =>
        if truthy mv then
          match pyGet mv "chat" with
          | Except.error e => Except.error e
          | Except.ok chatOpt =>
            match pyGet (chatOpt.getD (Json.jobj [])) "id" with
            | Except.error e => Except.error e
            | Except.ok idOpt =>
              match idOpt with
              | none => Except.ok ⟨st, [], okBody⟩
              | some Json.jnull => Except.ok ⟨st, [], okBody⟩
              | some chatIdV =>
                match pyGet mv "text" with
                | Except.error e => Except.error e
                | Except.ok textOpt =>
                  if truthy (textOpt.getD (Json.jstr "")) then
                    match textOpt.getD (Json.jstr "") with
                    | Json.jstr s =>
                      if pyStartsWith s "/start" then
                        match pyIntOfJson chatIdV with
                        | none => Except.error "ValueError"
                        | some cid =>
                          Except.ok ⟨(add_subscriber st cid).1,
                            [(cid, subscribeReply, send_message net cid subscribeReply)],
                            okBody⟩
                      else if pyStartsWith s "/stop" then
                        match pyIntOfJson chatIdV with
                        | none => Except.error "ValueError"
                        | some cid =>
                          Except.ok ⟨(remove_subscriber st cid).1,
                            [(cid, unsubscribeReply, send_message net cid unsubscribeReply)],
                            okBody⟩
                      else Except.ok ⟨st, [], okBody⟩
                    | _ => Except.error "AttributeError"
                  else Except.ok ⟨st, [], okBody⟩
        else Except.ok ⟨st, [], okBody⟩

/-- Claim C4 counterexample: on the JSON body whose message carries the chat id
"abc" (a string that is not a number) and the text "/start", the handler raises at
int("abc") with nothing catching it, so it never produces the ok response — the
framework answers 500, not 200 with ok true as the claim requires for every body. -/
theorem claim_C4_counterexample :
    telegram_webhook (fun _ => some 200) Storage.absent
      (Json.jobj [("message", Json.jobj
        [("chat", Json.jobj [("id", Json.jstr "abc")]),
         ("text", Json.jstr "/start")])]) = Except.error "ValueError" := by
  rfl

/-- Claim C4 (amended): every response the webhook handler itself produces is the
200 body with ok true, regardless of the internal outcome (missing message, missing
chat id, non-text content, unrecognized command, and any failure inside
add, remove or send, which are swallowed there); however, on a body with an
ill-typed field the handler raises instead of responding, and the framework turns
that into a 500 error. -/
theorem claim_C4 (net : Int → Option Nat) (st : Storage) (update : Json)
    (r : WebhookResult) (h : telegram_webhook net st update = Except.ok r) :
    r.response = okBody := by
  unfold telegram_webhook at h
  repeat' split at h
  all_goals first
    | exact Except.noConfusion h
    | (injection h with h2; subst h2; rfl)

theorem claim_C4_witness :
    telegram_webhook (fun _ => some 200) Storage.absent (Json.jobj []) =
      Except.ok ⟨Storage.absent, [], okBody⟩ ∧
    WebhookResult.response ⟨Storage.absent, [], okBody⟩ = okBody :=
  ⟨rfl, claim_C4 (fun _ => some 200) Storage.absent (Json.jobj [])
    ⟨Storage.absent, [], okBody⟩ rfl⟩

/-- Modelled from the spec: src/main.py has no tick_test endpoint (only its spec in
section 6 describes it, from another revision of the script). GET /tick_test parses
the configured admin identifier — the empty string when the environment variable is
unset — and when it is unset or not an integer returns status 400 with no send
attempted, otherwise sends the message to the admin chat id once and returns 204.
The result is the status code and the list of attempted sends. -/
def tick_test (net : Int → Option Nat) (adminRaw : String) (msg : String) :
    Nat × List (Int × String × Bool) :=
  match pyStrToInt adminRaw with
  | none => (400, [])
  | some adminId => (204, [(adminId, msg, send_message net adminId msg)])

/-- Claim C5: tick_test sends a single message to the configured admin identifier
and returns 204; when the admin identifier is unset or invalid it returns 400
without attempting any send. -/
theorem claim_C5 (net : Int → Option Nat) (adminRaw : String) (msg : String) :
    (pyStrToInt adminRaw = none → tick_test net adminRaw msg = (400, [])) ∧
    (∀ i : Int, pyStrToInt adminRaw = some i →
      tick_test net adminRaw msg = (204, [(i, msg, send_message net i msg)])) :=
  ⟨fun h => by simp [tick_test, h], fun i h => by simp [tick_test, h]⟩

theorem claim_C5_witness :
    tick_test (fun _ => some 200) "" "hi" = (400, []) ∧
    tick_test (fun _ => some 200) "7" "hi" =
      (204, [(7, "hi", send_message (fun _ => some 200) 7 "hi")]) :=
  ⟨(claim_C5 (fun _ => some 200) "" "hi").1 (by decide),
   (claim_C5 (fun _ => some 200) "7" "hi").2 7 (by decide)⟩
